import Mathlib

/-!
Verification development for the msbuild-mcp-server repository.

The repository contains two Python source files:
  * `src/server.py` — the legacy root-level server;
  * `src/src/msbuild_mcp_server/server.py` — the packaged server.

Both expose a single tool `build_msbuild_project` that locates MSBuild via
vswhere, optionally validates the requested configuration/platform against
values introspected from the project or solution file (packaged server only),
assembles an MSBuild argument vector, runs the child process, and summarizes
the result.

The development below is a shallow embedding: the outside world (vswhere,
the filesystem, XML parsing, the child process) is abstracted into a `World`
record of oracles, and each Python function becomes a pure Lean function over
that record.  A Python call that may raise an uncaught exception returns
`PyResult`, whose `exc` constructor models the propagating exception.
-/

set_option maxRecDepth 8192

namespace MSBuildMCP

/-- Result of a Python call: either a normal return value or a propagating
exception carrying its message. -/
inductive PyResult (α : Type) where
  | ok (a : α)
  | exc (msg : String)
deriving Repr, DecidableEq

/-- Outcome of `subprocess.run`: either a completed process (exit code plus
captured text streams) or a `FileNotFoundError` raised at launch. -/
structure RunResult where
  returncode : Int
  stdout : String
  stderr : String
deriving Repr, DecidableEq

inductive SubprocessOutcome where
  | completed (r : RunResult)
  | fileNotFoundError
deriving Repr, DecidableEq

/-! ### Python string primitives

These model the exact Python string operations used by the source.  Character
class predicates are modelled on their ASCII behaviour (the source only ever
feeds them build output and MSBuild condition strings). -/

/-- Python whitespace for `str.split()` / `str.strip()` / `\s` (ASCII part). -/
def pySpace (c : Char) : Bool :=
  c = ' ' || c = '\t' || c = '\n' || c = '\r' || c = '\x0b' || c = '\x0c'

/-- Python `str.lower()` (ASCII part). -/
def pyLower (s : String) : String :=
  String.mk (s.toList.map Char.toLower)

/-- Occurrence of `pat` as a contiguous sublist, i.e. Python's `pat in s`. -/
def subOccL (pat : List Char) : List Char → Bool
  | [] => pat.isEmpty
  | c :: rest => pat.isPrefixOf (c :: rest) || subOccL pat rest

/-- Python's substring test `pat in s`. -/
def pyIn (pat s : String) : Bool := subOccL pat.toList s.toList

/-- Test whether `p` starts `s` (used to state flag-shape facts about argv). -/
def strStarts (p s : String) : Bool := p.toList.isPrefixOf s.toList

/-- Python `str.strip()`: drop leading and trailing whitespace. -/
def pyStrip (s : String) : String :=
  String.mk (((s.toList.dropWhile pySpace).reverse.dropWhile pySpace).reverse)

/-- Python `str.split()` (no separator): split on whitespace runs, dropping empties. -/
def pySplit (s : String) : List String :=
  ((s.toList.splitOnP pySpace).map String.mk).filter (fun t => t ≠ "")

/-- Auxiliary for `str.splitlines()`: accumulate the current line (reversed). -/
def pySplitlinesAux : List Char → List Char → List String
  | [], acc => if acc.isEmpty then [] else [String.mk acc.reverse]
  | '\r' :: '\n' :: rest, acc => String.mk acc.reverse :: pySplitlinesAux rest []
  | '\r' :: rest, acc => String.mk acc.reverse :: pySplitlinesAux rest []
  | '\n' :: rest, acc => String.mk acc.reverse :: pySplitlinesAux rest []
  | c :: rest, acc => pySplitlinesAux rest (c :: acc)

/-- Python `str.splitlines()` on the line boundaries the source can meet
(`\n`, `\r\n`, `\r`); no empty final line for a trailing newline. -/
def pySplitlines (s : String) : List String := pySplitlinesAux s.toList []

/-- Python `s.split(sep)[0]`: the part of `s` before the first occurrence of the
one-character separator `sep` (the whole of `s` when absent). -/
def pySplitHead (s : String) (sep : Char) : String :=
  String.mk (s.toList.takeWhile (fun c => c ≠ sep))

/-- The part of `s` after the first occurrence of `sep`
(i.e. `s.split(sep, 1)[1]`; only used when `sep in s`). -/
def pySplitTail (s : String) (sep : Char) : String :=
  String.mk (((s.toList.dropWhile (fun c => c ≠ sep)).drop 1))

/-- Python `set.add` on the list model: sets are carried as duplicate-free
lists in first-insertion order (claims only use membership and emptiness,
which are insertion-order independent, matching `set` semantics). -/
def setAdd (xs : List String) (x : String) : List String :=
  if xs.contains x then xs else xs ++ [x]

/-- Python `str.endswith(suffix)`. -/
def pyEndsWith (s sfx : String) : Bool := sfx.toList.isSuffixOf s.toList

/-- Python truthiness of the `max_cpu_count: int = None` parameter:
`None` and `0` are falsy, every other int is truthy. -/
def pyTruthyInt : Option Int → Bool
  | none => false
  | some n => n != 0

/-! ### JSON encoding

`json.dumps(..., ensure_ascii=False)` on the fixed-shape dictionaries the
source builds.  Default separators are `", "` and `": "`; key order is
insertion order.  String escaping covers the characters that can occur in
the source's payloads (backslash, quote, newline, tab, carriage return);
other characters pass through because `ensure_ascii` is off. -/

def jsonEscapeChar (c : Char) : String :=
  if c = '\\' then "\\\\"
  else if c = '\"' then "\\\""
  else if c = '\n' then "\\n"
  else if c = '\t' then "\\t"
  else if c = '\r' then "\\r"
  else String.mk [c]

def jsonStr (s : String) : String :=
  "\"" ++ String.join (s.toList.map jsonEscapeChar) ++ "\""

def jsonStrList (xs : List String) : String :=
  "[" ++ String.intercalate ", " (xs.map jsonStr) ++ "]"

/-- One `"key": value` JSON member. -/
def jsonMember (key value : String) : String := jsonStr key ++ ": " ++ value

def jsonObj (members : List String) : String :=
  "\x7b" ++ String.intercalate ", " members ++ "\x7d"

/-! ### The abstracted outside world -/

/-- Oracles for everything the Python source observes outside pure string
processing.  `readLines` models `open(path, encoding='utf-8')` iteration on a
solution file (an `exc` is an `IOError`/`UnicodeDecodeError` escaping `open`
or iteration); `xmlConditions` models `ET.parse` plus
`root.findall('.//msbuild:PropertyGroup', ns)`, yielding each property
group's `Condition` attribute (empty string when absent, matching
`pg.attrib.get('Condition', '')`), with `exc` standing for any exception
raised inside that `try` body; `run` models `subprocess.run` with both
streams captured through pipes. -/
structure World where
  vswhereLatestPath : Option String
  pathExists : String → Bool
  isfile : String → Bool
  readLines : String → PyResult (List String)
  xmlConditions : String → PyResult (List String)
  run : List String → SubprocessOutcome

/-! ### find_msbuild -/

/-- Fixed relative suffix `os.path.join(root, "MSBuild", "Current", "Bin",
"MSBuild.exe")` appends under the vswhere installation root (Windows
separator, root without a trailing separator). -/
def msbuildRelSuffix : String := "\\MSBuild\\Current\\Bin\\MSBuild.exe"

/-- Embedding of `find_msbuild` (identical in both source files).  The raised
`FileNotFoundError`s become `PyResult.exc` with the exception's message. -/
def find_msbuild (w : World) : PyResult String :=
  match w.vswhereLatestPath with
  | none => .exc "MSBuild executable not found. Ensure Visual Studio is installed."
  | some root =>
    let msbuild_path := root ++ msbuildRelSuffix
    if w.pathExists msbuild_path then .ok msbuild_path
    else .exc ("MSBuild executable not found at expected path: " ++ msbuild_path)

/-! ### get_msbuild_configurations_and_platforms (packaged server only) -/

/-- Scan of the solution file's lines, following the nested `for` loops over
the single file iterator: the flag records whether the scan is inside a
`GlobalSection(SolutionConfigurationPlatforms)` section.  Lines may carry
their trailing newline or not; every use below is through a substring test
or `strip`, so it cannot matter. -/
def slnScan : List String → Bool → List String → List String → List String × List String
  | [], _, cfgs, plats => (cfgs, plats)
  | line :: rest, false, cfgs, plats =>
    if pyIn "GlobalSection(SolutionConfigurationPlatforms)" line then
      slnScan rest true cfgs plats
    else
      slnScan rest false cfgs plats
  | line :: rest, true, cfgs, plats =>
    if pyIn "EndGlobalSection" line then
      slnScan rest false cfgs plats
    else if pyIn "=" line then
      let configplat := pyStrip (pySplitHead line '=')
      if pyIn "|" configplat then
        slnScan rest true (setAdd cfgs (pySplitHead configplat '|'))
          (setAdd plats (pySplitTail configplat '|'))
      else slnScan rest true cfgs plats
    else slnScan rest true cfgs plats

/-- Literal part of the condition pattern
(the quoted `$(Configuration)|$(Platform)` placeholder pair). -/
def condLit : List Char := "\x27$(Configuration)|$(Platform)\x27".toList

/-- Consume an exact literal, returning the remainder on success. -/
def dropExact : List Char → List Char → Option (List Char)
  | [], s => some s
  | _, [] => none
  | p :: ps, c :: cs => if p = c then dropExact ps cs else none

/-- Match of the source's regular expression at the head of `s`:
the quoted placeholder pair, optional whitespace, two equals signs, optional
whitespace, then a quoted `Config|Platform` pair whose configuration part is
one or more non-bar characters and whose platform part is one or more
non-quote characters.  Greedy character classes here never backtrack, so the
translation is an exact match-at-position function. -/
def matchCondAt (s : List Char) : Option (String × String) := do
  let s1 ← dropExact condLit s
  let s3 ← dropExact ['=', '='] (s1.dropWhile pySpace)
  let s5 ← dropExact ['\x27'] (s3.dropWhile pySpace)
  let cfg := s5.takeWhile (fun c => c ≠ '|')
  if cfg.isEmpty then none else
  match s5.dropWhile (fun c => c ≠ '|') with
  | '|' :: s7 =>
    let plat := s7.takeWhile (fun c => c ≠ '\x27')
    if plat.isEmpty then none else
    match s7.dropWhile (fun c => c ≠ '\x27') with
    | '\x27' :: _ => some (String.mk cfg, String.mk plat)
    | _ => none
  | _ => none

/-- Leftmost search (Python `re.search`): try the match at each start
position from left to right. -/
def searchCond : List Char → Option (String × String)
  | [] => none
  | s@(_ :: rest) =>
    match matchCondAt s with
    | some r => some r
    | none => searchCond rest

/-- Body of the XML branch's loop over property groups: require both
`'Configuration' in cond` and `'Platform' in cond`, then apply the regular
expression search and add both captured literals. -/
def condExtract (acc : List String × List String) (cond : String) :
    List String × List String :=
  if pyIn "Configuration" cond && pyIn "Platform" cond then
    match searchCond cond.toList with
    | some cp => (setAdd acc.1 cp.1, setAdd acc.2 cp.2)
    | none => acc
  else acc

/-- Embedding of `get_msbuild_configurations_and_platforms`.  The solution
branch has no `try`/`except`, so a read failure propagates; the XML branch
wraps everything in `try ... except Exception: pass` and then returns the
(still empty) sets. -/
def get_msbuild_configurations_and_platforms (w : World) (project_path : String) :
    PyResult (List String × List String) :=
  if pyEndsWith project_path ".sln" then
    match w.readLines project_path with
    | .exc m => .exc m
    | .ok lines => .ok (slnScan lines false [] [])
  else
    match w.xmlConditions project_path with
    | .exc _ => .ok ([], [])
    | .ok conds => .ok (conds.foldl condExtract ([], []))

/-! ### The messages built by build_msbuild_project -/

def msgNotAFile (project_path : String) : String :=
  "The specified project_path does not exist or is not a file: " ++ project_path ++
  "\nPlease provide the absolute path to the project or solution file to build."

def msgCouldNotExtract : String :=
  "Could not extract available configurations or platforms from the project file. Please specify them manually."

def discoveryMessage (configs plats : List String) : String :=
  jsonObj [jsonMember "message"
             (jsonStr "Please select a configuration and platform from the available options."),
           jsonMember "available_configurations" (jsonStrList configs),
           jsonMember "available_platforms" (jsonStrList plats)]

def rejectConfigMessage (configuration : String) (configs : List String) : String :=
  jsonObj [jsonMember "message"
             (jsonStr ("The configuration \x27" ++ configuration ++
               "\x27 is not supported by this project. Please select from the available options.")),
           jsonMember "available_configurations" (jsonStrList configs)]

def rejectPlatformMessage (platform : String) (plats : List String) : String :=
  jsonObj [jsonMember "message"
             (jsonStr ("The platform \x27" ++ platform ++
               "\x27 is not supported by this project. Please select from the available options.")),
           jsonMember "available_platforms" (jsonStrList plats)]

def msgLaunchFailure : String :=
  "MSBuild executable not found. Ensure MSBuild is installed and added to the PATH."

/-! ### Command assembly and result summarization (shared by both servers) -/

/-- Rendering of an `int` under an f-string (`None` is unreachable here
because the call is guarded by truthiness). -/
def pyIntStr : Option Int → String
  | none => "None"
  | some n => toString n

/-- Embedding of the `cmd` list both servers assemble, line for line:
fixed head, parallelism flag, optional restore flag, whitespace-split extra
arguments. -/
def buildCmd (msbuild project_path configuration platform verbosity : String)
    (max_cpu_count : Option Int) (restore : Bool) (additional_args : String) :
    List String :=
  [msbuild, project_path,
   "/p:Configuration=" ++ configuration,
   "/p:Platform=" ++ platform,
   "/verbosity:" ++ verbosity]
  ++ (if pyTruthyInt max_cpu_count then ["/maxcpucount:" ++ pyIntStr max_cpu_count]
      else ["/m"])
  ++ (if restore then ["/restore"] else [])
  ++ (if additional_args != "" then pySplit additional_args else [])

/-- Lines of a stream that contain "error" case-insensitively
(`[line for line in s.splitlines() if "error" in line.lower()]`). -/
def error_lines (s : String) : List String :=
  (pySplitlines s).filter (fun line => pyIn "error" (pyLower line))

/-- Joined filtered error lines, stdout matches first
(`"\n".join(error_lines_stdout + error_lines_stderr)`). -/
def filtered_errors (stdout stderr : String) : String :=
  String.intercalate "\n" (error_lines stdout ++ error_lines stderr)

/-- Failure report of the packaged server: header plus the filtered errors. -/
def failureReport (stdout stderr : String) : String :=
  "Build failed with errors.\nFiltered Errors:\n" ++ filtered_errors stdout stderr

/-- Failure report of the legacy root-level server: the same header and
filtered errors followed by the full stdout and stderr verbatim. -/
def legacyFailureReport (stdout stderr : String) : String :=
  failureReport stdout stderr ++ "\nFull Output:\n" ++ stdout ++ "\nErrors:\n" ++ stderr

/-- Embedding of the shared `try: subprocess.run ... except FileNotFoundError`
tail of the packaged server. -/
def runAndSummarize (w : World) (cmd : List String) : PyResult String :=
  match w.run cmd with
  | .fileNotFoundError => .ok msgLaunchFailure
  | .completed r =>
    if r.returncode == 0 then .ok "Build succeeded."
    else .ok (failureReport r.stdout r.stderr)

/-- Same tail for the legacy server, whose failure report keeps the raw
streams. -/
def legacyRunAndSummarize (w : World) (cmd : List String) : PyResult String :=
  match w.run cmd with
  | .fileNotFoundError => .ok msgLaunchFailure
  | .completed r =>
    if r.returncode == 0 then .ok "Build succeeded."
    else .ok (legacyFailureReport r.stdout r.stderr)

/-! ### build_msbuild_project -/

/-- Embedding of the packaged server's `build_msbuild_project`.  The
`find_msbuild()` call and the introspection call sit outside the `try`
block, so their exceptions propagate (`.exc`).  Empty-string tests model
Python string falsiness; `List.isEmpty`/`List.contains` model list
truthiness and `in`. -/
def build_msbuild_project (w : World)
    (project_path configuration platform verbosity : String)
    (max_cpu_count : Option Int) (restore : Bool) (additional_args : String) :
    PyResult String :=
  match find_msbuild w with
  | .exc m => .exc m
  | .ok msbuild =>
    if !w.isfile project_path then .ok (msgNotAFile project_path)
    else
      match get_msbuild_configurations_and_platforms w project_path with
      | .exc m => .exc m
      | .ok (configs, plats) =>
        if configuration == "" || platform == "" then
          if configs.isEmpty || plats.isEmpty then .ok msgCouldNotExtract
          else .ok (discoveryMessage configs plats)
        else if !configs.isEmpty && !configs.contains configuration then
          .ok (rejectConfigMessage configuration configs)
        else if !plats.isEmpty && !plats.contains platform then
          .ok (rejectPlatformMessage platform plats)
        else
          runAndSummarize w
            (buildCmd msbuild project_path configuration platform verbosity
              max_cpu_count restore additional_args)

/-- Embedding of the legacy root-level server's `build_msbuild_project`:
no file check, no introspection, no validation — discovery, command
assembly, run, summarize. -/
def legacy_build_msbuild_project (w : World)
    (project_path configuration platform verbosity : String)
    (max_cpu_count : Option Int) (restore : Bool) (additional_args : String) :
    PyResult String :=
  match find_msbuild w with
  | .exc m => .exc m
  | .ok msbuild =>
    legacyRunAndSummarize w
      (buildCmd msbuild project_path configuration platform verbosity
        max_cpu_count restore additional_args)

/-! ### Environment Reconstructor (spec §4.2)

No environment-reconstruction code exists under `src/` (both source files
pass `subprocess.run` no `env` argument at all), so this component is
modelled from the spec. -/

/-- Modelled from the spec: case-insensitive name lookup in an environment
map ("ordered-irrelevant mapping from variable name (case-insensitive ...)
to string value"). -/
def lookupCI (env : List (String × String)) (name : String) : Option String :=
  (env.find? (fun kv => pyLower kv.1 == pyLower name)).map (fun kv => kv.2)

/-- Modelled from the spec: the PATH-equivalent variable, compared
case-insensitively. -/
def isPathName (n : String) : Bool := pyLower n == "path"

/-- Modelled from the spec: the platform path separator joining accumulated
PATH values (Windows). -/
def pathSep : String := ";"

/-- Modelled from the spec: install one persistent-scope entry into the
in-progress map — "for the PATH-equivalent variable, accumulate all scope
values joined by the platform path separator rather than replacing; for all
other variables, last-scope-wins". -/
def scopePut (m : List (String × String)) (name value : String) :
    List (String × String) :=
  match lookupCI m name with
  | none => m ++ [(name, value)]
  | some old =>
    m.map (fun kv =>
      if pyLower kv.1 == pyLower name then
        (kv.1, if isPathName name then old ++ pathSep ++ value else value)
      else kv)

/-- Modelled from the spec: "enumerate all name/value pairs from each of two
persistent scopes (machine, then user)" into one map. -/
def mergePersistent (machine user : List (String × String)) :
    List (String × String) :=
  (machine ++ user).foldl (fun m kv => scopePut m kv.1 kv.2) []

/-- Modelled from the spec: "Overlay onto a copy of the current process
environment (current process values win only for names absent from
persistent scopes)". -/
def overlayProcess (persistent proc : List (String × String)) :
    List (String × String) :=
  persistent ++ proc.filter (fun kv => (lookupCI persistent kv.1).isNone)

/-- Modelled from the spec: one scan of a value resolving percent-delimited
placeholders by case-insensitive lookup against the input map; a
placeholder whose name is not present is left verbatim.  The fuel argument
only bounds recursion (any fuel at least the list length is exact). -/
def substChars (env : List (String × String)) : Nat → List Char → List Char
  | 0, s => s
  | _ + 1, [] => []
  | fuel + 1, c :: rest =>
    if c = '%' then
      (let name := rest.takeWhile (fun x => x ≠ '%')
       match rest.dropWhile (fun x => x ≠ '%') with
       | '%' :: tail =>
         match lookupCI env (String.mk name) with
         | some v => v.toList ++ substChars env fuel tail
         | none => '%' :: (name ++ '%' :: substChars env fuel tail)
       | _ => c :: rest)
    else c :: substChars env fuel rest

/-- Modelled from the spec: one substitution pass, a "pure function over an
immutable input map producing a new map". -/
def substPass (m : List (String × String)) : List (String × String) :=
  m.map (fun kv => (kv.1, String.mk (substChars m kv.2.toList.length kv.2.toList)))

/-- Modelled from the spec: "iterating substitution up to a fixed bound
(default 3 passes), stopping early on fixed point". -/
def substFix : Nat → List (String × String) → List (String × String)
  | 0, m => m
  | k + 1, m =>
    let m2 := substPass m
    if m2 = m then m else substFix k m2

/-- Modelled from the spec: the whole Environment Reconstructor — merge the
two persistent scopes, overlay onto the process environment, then resolve
placeholders with the bounded fixed-point iteration. -/
def reconstructEnvironment (machine user proc : List (String × String)) :
    List (String × String) :=
  substFix 3 (overlayProcess (mergePersistent machine user) proc)

/-! ### Temp-file-backed Process Runner (spec §4.5)

Both source files capture output through `subprocess.PIPE`, so the
temporary-backing-store runner the spec describes is likewise not under
`src/`; it is modelled from the spec.  The filesystem is the list of file
names present. -/

/-- Behaviour of one child-process launch: spawning either raises at launch
or the child runs to completion with an exit code and two output texts. -/
inductive LaunchBehavior where
  | launchFails
  | runs (exitCode : Int) (outText errText : String)
deriving Repr, DecidableEq

/-- Removal of a file from the modelled filesystem. -/
def fsRemove (fs : List String) (name : String) : List String :=
  fs.filter (fun f => f ≠ name)

/-- Modelled from the spec: the Process Runner captures stdout and stderr in
two temporary backing stores, and "cleans up its backing stores on every
exit path, including exceptions, once their contents have been read back
into memory" — a try/finally around launch-wait-read with removal of both
stores in the finally part.  Returns the Python-level result together with
the final filesystem. -/
def runWithBackingStores (fs : List String) (outStore errStore : String)
    (beh : LaunchBehavior) : PyResult (Int × String × String) × List String :=
  let fsAcquired := fs ++ [outStore, errStore]
  let res : PyResult (Int × String × String) :=
    match beh with
    | .launchFails => .exc "FileNotFoundError"
    | .runs code o e => .ok (code, o, e)
  (res, fsRemove (fsRemove fsAcquired outStore) errStore)

/-! ### The argument vector as claim C5 words it -/

/-- Argument vector in the shape the claim describes: executable path,
project path, configuration property, platform property, verbosity flag,
either an explicit parallelism flag or the default auto-parallel flag, a
flag disabling build-node reuse, an optional restore flag when restore is
true, and the extra-arguments string split on whitespace appended verbatim.
The claim does not fix the node-reuse flag's spelling, so it is a
parameter. -/
def claimedArgumentVector (msbuild project_path configuration platform verbosity : String)
    (max_cpu_count : Option Int) (nodeReuseFlag : String) (restore : Bool)
    (additional_args : String) : List String :=
  [msbuild, project_path,
   "/p:Configuration=" ++ configuration,
   "/p:Platform=" ++ platform,
   "/verbosity:" ++ verbosity,
   (if pyTruthyInt max_cpu_count then "/maxcpucount:" ++ pyIntStr max_cpu_count
    else "/m"),
   nodeReuseFlag]
  ++ (if restore then ["/restore"] else [])
  ++ pySplit additional_args

/-! ### Helper lemmas -/

lemma isPrefixOf_append_self (s b : List Char) : s.isPrefixOf (s ++ b) = true := by
  induction s with
  | nil => simp [List.isPrefixOf]
  | cons c cs ih => simp [List.isPrefixOf, ih]

lemma subOccL_nil_pat (l : List Char) : subOccL [] l = true := by
  cases l <;> simp [subOccL, List.isPrefixOf]

lemma subOccL_middle (a s b : List Char) : subOccL s (a ++ (s ++ b)) = true := by
  induction a with
  | nil =>
    cases s with
    | nil => simpa using subOccL_nil_pat b
    | cons c cs => simp [subOccL, isPrefixOf_append_self]
  | cons c a ih => simp [subOccL, ih]

/-- Occurrence of a whole string in the middle of a concatenation. -/
lemma pyIn_middle (a s b : String) : pyIn s (a ++ (s ++ b)) = true := by
  have h : (a ++ (s ++ b)).toList = a.toList ++ (s.toList ++ b.toList) := by
    simp [String.toList]
  rw [pyIn, h]
  exact subOccL_middle _ _ _

lemma subOccL_singleton (c : Char) (l : List Char) : subOccL [c] l = l.contains c := by
  induction l with
  | nil => rfl
  | cons d rest ih =>
    cases hcd : c == d <;>
      simp [subOccL, List.isPrefixOf, ih, List.contains, List.elem, hcd]

/-- Absence of a one-character pattern means the character is not in the
string. -/
lemma notMem_of_pyIn_singleton_false {c : Char} {s : String}
    (h : pyIn (String.mk [c]) s = false) : c ∉ s.toList := by
  have h2 : subOccL [c] s.toList = false := h
  rw [subOccL_singleton] at h2
  simp at h2
  exact h2

lemma setAdd_isEmpty (xs : List String) (x : String) : (setAdd xs x).isEmpty = false := by
  unfold setAdd
  split
  · next h =>
    cases xs with
    | nil => simp at h
    | cons a l => rfl
  · cases xs <;> rfl

lemma slnScan_isEmpty_eq (lines : List String) : ∀ (m : Bool) (cfgs plats : List String),
    cfgs.isEmpty = plats.isEmpty →
    (slnScan lines m cfgs plats).1.isEmpty = (slnScan lines m cfgs plats).2.isEmpty := by
  induction lines with
  | nil => intro m cfgs plats h; exact h
  | cons line rest ih =>
    intro m cfgs plats h
    cases m with
    | false =>
      simp only [slnScan]
      split
      · exact ih true cfgs plats h
      · exact ih false cfgs plats h
    | true =>
      simp only [slnScan]
      split
      · exact ih false cfgs plats h
      · split
        · split
          · exact ih true _ _ (by rw [setAdd_isEmpty, setAdd_isEmpty])
          · exact ih true cfgs plats h
        · exact ih true cfgs plats h

lemma condExtract_isEmpty_eq (acc : List String × List String) (cond : String)
    (h : acc.1.isEmpty = acc.2.isEmpty) :
    (condExtract acc cond).1.isEmpty = (condExtract acc cond).2.isEmpty := by
  unfold condExtract
  split
  · split
    · simp [setAdd_isEmpty]
    · exact h
  · exact h

lemma condFold_isEmpty_eq (conds : List String) :
    ∀ acc : List String × List String, acc.1.isEmpty = acc.2.isEmpty →
      ((conds.foldl condExtract acc).1.isEmpty =
       (conds.foldl condExtract acc).2.isEmpty) := by
  induction conds with
  | nil => intro acc h; exact h
  | cons c cs ih => intro acc h; exact ih _ (condExtract_isEmpty_eq acc c h)

/-- Discovered configurations and platforms are always both empty or both
non-empty: every branch of the introspector adds to the two sets in pairs. -/
lemma introspect_isEmpty_eq (w : World) (pp : String) (configs plats : List String)
    (h : get_msbuild_configurations_and_platforms w pp = .ok (configs, plats)) :
    configs.isEmpty = plats.isEmpty := by
  unfold get_msbuild_configurations_and_platforms at h
  split at h
  · cases hrl : w.readLines pp with
    | exc m => rw [hrl] at h; cases h
    | ok lines =>
      rw [hrl] at h
      injection h with h2
      have := slnScan_isEmpty_eq lines false [] [] rfl
      rw [h2] at this
      exact this
  · cases hxc : w.xmlConditions pp with
    | exc m =>
      rw [hxc] at h
      injection h with h2
      injection h2 with ha hb
      rw [← ha, ← hb]
    | ok conds =>
      rw [hxc] at h
      injection h with h2
      have := condFold_isEmpty_eq conds ([], []) rfl
      rw [h2] at this
      exact this

/-- Changing only the `run` oracle does not change toolchain discovery. -/
lemma find_msbuild_run_update (w : World) (f : List String → SubprocessOutcome) :
    find_msbuild {w with run := f} = find_msbuild w := rfl

/-- Changing only the `run` oracle does not change introspection. -/
lemma introspect_run_update (w : World) (f : List String → SubprocessOutcome)
    (pp : String) :
    get_msbuild_configurations_and_platforms {w with run := f} pp =
      get_msbuild_configurations_and_platforms w pp := rfl

/-- A mismatch against a prefix shorter than a concatenation's left part
survives appending. -/
lemma isPrefixOf_append_false {p q : List Char} (s : List Char)
    (h : p.isPrefixOf q = false) (hlen : p.length ≤ q.length) :
    p.isPrefixOf (q ++ s) = false := by
  by_contra hc
  have htrue : p.isPrefixOf (q ++ s) = true := by
    cases hx : p.isPrefixOf (q ++ s) with
    | true => rfl
    | false => exact absurd hx hc
  have hp : p <+: q ++ s := List.isPrefixOf_iff_prefix.mp htrue
  have hq : p <+: q := by
    rw [List.prefix_iff_eq_take] at hp ⊢
    rw [List.take_append_of_le_length hlen] at hp
    exact hp
  rw [List.isPrefixOf_iff_prefix.mpr hq] at h
  cases h

/-- String-level version of the previous lemma, for the fixed argv flags. -/
lemma strStarts_append_false (p q s : String)
    (h : strStarts p q = false) (hlen : p.toList.length ≤ q.toList.length) :
    strStarts p (q ++ s) = false := by
  unfold strStarts at h ⊢
  rw [show (q ++ s).toList = q.toList ++ s.toList by simp [String.toList]]
  exact isPrefixOf_append_false _ h hlen

/-- A pattern whose short head already mismatches the concatenation's fixed
left part cannot start the concatenation, whatever is appended. -/
lemma strStarts_trans_mismatch (p p2 q s : String)
    (hpre : strStarts p2 p = true)
    (hmis : strStarts p2 q = false)
    (hlen : p2.toList.length ≤ q.toList.length) :
    strStarts p (q ++ s) = false := by
  unfold strStarts at hpre hmis ⊢
  rw [show (q ++ s).toList = q.toList ++ s.toList by simp [String.toList]]
  by_contra hc
  have hptrue : p.toList.isPrefixOf (q.toList ++ s.toList) = true := by
    cases hx : p.toList.isPrefixOf (q.toList ++ s.toList) with
    | true => rfl
    | false => exact absurd hx hc
  have h1 : p2.toList <+: p.toList := List.isPrefixOf_iff_prefix.mp hpre
  have h2 : p.toList <+: q.toList ++ s.toList := List.isPrefixOf_iff_prefix.mp hptrue
  have h3 : p2.toList.isPrefixOf (q.toList ++ s.toList) = true :=
    List.isPrefixOf_iff_prefix.mpr (h1.trans h2)
  rw [isPrefixOf_append_false s.toList hmis hlen] at h3
  cases h3

/-- A string at least as long as a concatenation's fixed left part plus one
cannot equal a shorter literal (stated through lengths). -/
lemma append_ne_of_length_lt (q s t : String) (h : t.length < q.length) :
    (q ++ s) ≠ t := by
  intro he
  have : (q ++ s).length = t.length := by rw [he]
  rw [String.length_append] at this
  omega

lemma substChars_eq_of_not_mem (env : List (String × String)) :
    ∀ (fuel : Nat) (l : List Char), '%' ∉ l → substChars env fuel l = l := by
  intro fuel
  induction fuel with
  | zero => intro l _; rfl
  | succ fuel ih =>
    intro l h
    cases l with
    | nil => rfl
    | cons c rest =>
      have hc : c ≠ '%' := by
        intro he
        exact h (by rw [he]; exact List.mem_cons_self _ _)
      have hrest : '%' ∉ rest := fun hm => h (List.mem_cons_of_mem _ hm)
      simp only [substChars]
      rw [if_neg hc, ih rest hrest]

lemma lookupCI_substPass (m : List (String × String)) (n : String) :
    lookupCI (substPass m) n =
      (lookupCI m n).map
        (fun v => String.mk (substChars m v.toList.length v.toList)) := by
  unfold lookupCI substPass
  rw [List.find?_map, Option.map_map, Option.map_map]
  rfl

lemma lookupCI_substFix {n v : String} (hv : '%' ∉ v.toList) :
    ∀ (k : Nat) (m : List (String × String)), lookupCI m n = some v →
      lookupCI (substFix k m) n = some v := by
  intro k
  induction k with
  | zero => intro m h; exact h
  | succ k ih =>
    intro m h
    show lookupCI (if substPass m = m then m else substFix k (substPass m)) n = some v
    split
    · exact h
    · apply ih
      rw [lookupCI_substPass, h]
      show some (String.mk (substChars m v.toList.length v.toList)) = some v
      rw [substChars_eq_of_not_mem m _ _ hv]
      rfl

/-- Fixed concrete world used by witnesses and counterexamples: every oracle
is a constant function. -/
def constWorld (vs : Option String) (pe fi : Bool) (rl xc : PyResult (List String))
    (ro : SubprocessOutcome) : World :=
  ⟨vs, fun _ => pe, fun _ => fi, fun _ => rl, fun _ => xc, fun _ => ro⟩

lemma subOccL_suffix (a s : List Char) : subOccL s (a ++ s) = true := by
  have h := subOccL_middle a s []
  simpa using h

lemma subOccL_self_append (s b : List Char) : subOccL s (s ++ b) = true := by
  have h := subOccL_middle [] s b
  simpa using h

/-- Occurrence of a whole string at the start of a concatenation. -/
lemma pyIn_self_append (s b : String) : pyIn s (s ++ b) = true := by
  have h : (s ++ b).toList = s.toList ++ b.toList := by simp [String.toList]
  rw [pyIn, h]
  exact subOccL_self_append _ _

/-- The assembled command always equals the five fixed arguments, the
parallelism flag, the optional restore flag, and the whitespace-split extra
arguments (appending the split of the empty string and skipping the append
agree). -/
lemma buildCmd_shape
    (msb pp cfg plat verb : String) (mcc : Option Int) (rst : Bool) (extra : String) :
    buildCmd msb pp cfg plat verb mcc rst extra =
      [msb, pp,
       "/p:Configuration=" ++ cfg,
       "/p:Platform=" ++ plat,
       "/verbosity:" ++ verb]
      ++ (if pyTruthyInt mcc then ["/maxcpucount:" ++ pyIntStr mcc] else ["/m"])
      ++ (if rst then ["/restore"] else [])
      ++ pySplit extra := by
  unfold buildCmd
  by_cases h : extra = ""
  · subst h
    simp
    decide
  · have h2 : (extra != "") = true := by simp [h]
    rw [h2]
    simp

/-- Occurrence of a whole string at the end of a concatenation. -/
lemma pyIn_suffix (a s : String) : pyIn s (a ++ s) = true := by
  have h : (a ++ s).toList = a.toList ++ s.toList := by simp [String.toList]
  rw [pyIn, h]
  exact subOccL_suffix _ _

/-! ### Claim theorems -/

/-- C1: for every invocation whose child process exits with a non-zero code,
the failure report's filteredErrors is exactly the newline-join of every
stdout line containing "error" case-insensitively followed by every such
stderr line, in original line order, stdout matches first; and any stderr
line containing "error" — such as "error MSB1009: project file does not
exist" — appears verbatim among the joined lines. -/
theorem C1_filtered_errors_exact (w : World)
    (pp cfg plat verb : String) (mcc : Option Int) (rst : Bool) (extra : String)
    (msb : String) (configs plats : List String) (r : RunResult)
    (hfind : find_msbuild w = .ok msb)
    (hfile : w.isfile pp = true)
    (hintro : get_msbuild_configurations_and_platforms w pp = .ok (configs, plats))
    (hcp : (cfg == "" || plat == "") = false)
    (hcfgok : ¬(configs ≠ [] ∧ cfg ∉ configs))
    (hplatok : ¬(plats ≠ [] ∧ plat ∉ plats))
    (hrun : w.run (buildCmd msb pp cfg plat verb mcc rst extra) = .completed r)
    (hcode : (r.returncode == 0) = false) :
    build_msbuild_project w pp cfg plat verb mcc rst extra =
      .ok ("Build failed with errors.\nFiltered Errors:\n" ++
        String.intercalate "\n"
          ((pySplitlines r.stdout).filter (fun line => pyIn "error" (pyLower line)) ++
           (pySplitlines r.stderr).filter (fun line => pyIn "error" (pyLower line)))) ∧
    ∀ line ∈ pySplitlines r.stderr, pyIn "error" (pyLower line) = true →
      line ∈ (pySplitlines r.stdout).filter (fun l => pyIn "error" (pyLower l)) ++
             (pySplitlines r.stderr).filter (fun l => pyIn "error" (pyLower l)) := by
  constructor
  · simp [build_msbuild_project, hfind, hfile, hintro, hcp, hcfgok, hplatok,
      runAndSummarize, hrun, hcode, failureReport, filtered_errors, error_lines]
  · intro line hmem hline
    exact List.mem_append_right _ (List.mem_filter.mpr ⟨hmem, hline⟩)

/-- Witness for C1 at a concrete world: exit code 1 with the MSB1009 line on
stderr yields exactly that line as the filtered errors, and the line occurs
verbatim in filteredErrors. -/
theorem C1_filtered_errors_exact_witness :
    build_msbuild_project
      (constWorld (some "C:\\VS") true true (.exc "unused") (.ok [])
        (.completed ⟨1, "Build started", "error MSB1009: project file does not exist"⟩))
      "p.vcxproj" "Debug" "x64" "minimal" none true "" =
      .ok "Build failed with errors.\nFiltered Errors:\nerror MSB1009: project file does not exist" ∧
    pyIn "error MSB1009: project file does not exist"
      (filtered_errors "Build started" "error MSB1009: project file does not exist") = true := by
  have h := C1_filtered_errors_exact
    (constWorld (some "C:\\VS") true true (.exc "unused") (.ok [])
      (.completed ⟨1, "Build started", "error MSB1009: project file does not exist"⟩))
    "p.vcxproj" "Debug" "x64" "minimal" none true ""
    ("C:\\VS" ++ msbuildRelSuffix) [] []
    ⟨1, "Build started", "error MSB1009: project file does not exist"⟩
    rfl rfl rfl rfl (by decide) (by decide) rfl rfl
  refine ⟨?_, by decide⟩
  rw [h.1]
  rfl

/-- C2 counterexample: in the packaged server, a failing build whose stdout
is "hello\nerror x" and whose stderr is "world stream" produces a report
that contains neither the full stdout nor the full stderr — only the
filtered error lines — so the failure report does not retain the raw
streams. -/
theorem C2_packaged_report_drops_raw_output :
    build_msbuild_project
      (constWorld (some "C:\\VS") true true (.exc "unused") (.ok [])
        (.completed ⟨1, "hello\nerror x", "world stream"⟩))
      "p.vcxproj" "Debug" "x64" "minimal" none true "" =
      .ok "Build failed with errors.\nFiltered Errors:\nerror x" ∧
    pyIn "hello\nerror x" "Build failed with errors.\nFiltered Errors:\nerror x" = false ∧
    pyIn "world stream" "Build failed with errors.\nFiltered Errors:\nerror x" = false := by
  exact ⟨by decide, by decide, by decide⟩

/-- C2 amended: only the legacy root-level server's failure report contains
the full captured stdout and stderr verbatim in addition to filteredErrors;
the packaged server's failure report is the header plus filteredErrors
only. -/
theorem C2_raw_output_retention (stdout stderr : String) :
    pyIn stdout (legacyFailureReport stdout stderr) = true ∧
    pyIn stderr (legacyFailureReport stdout stderr) = true ∧
    failureReport stdout stderr =
      "Build failed with errors.\nFiltered Errors:\n" ++ filtered_errors stdout stderr := by
  refine ⟨?_, ?_, rfl⟩
  · have h : legacyFailureReport stdout stderr =
        (failureReport stdout stderr ++ "\nFull Output:\n") ++
          (stdout ++ ("\nErrors:\n" ++ stderr)) := by
      simp [legacyFailureReport, String.append_assoc]
    rw [h]
    exact pyIn_middle _ _ _
  · have h : legacyFailureReport stdout stderr =
        (failureReport stdout stderr ++ "\nFull Output:\n" ++ stdout ++ "\nErrors:\n") ++
          stderr := by
      simp [legacyFailureReport, String.append_assoc]
    rw [h]
    exact pyIn_suffix _ _

/-- C3: for every request with empty configuration or platform whose
introspection yields at least one non-empty discovered set, the operation
returns the structured discovery message enumerating the available
configurations and platforms, for every run oracle alike (so the child
process is never consulted and no argument vector is acted on).  The
introspector adds to both sets in pairs, hence "at least one non-empty"
coincides with "both non-empty" and the code's both-sets guard agrees with
the claim. -/
theorem C3_discovery_on_empty_parameters (w : World)
    (pp cfg plat verb : String) (mcc : Option Int) (rst : Bool) (extra : String)
    (msb : String) (configs plats : List String)
    (hfind : find_msbuild w = .ok msb)
    (hfile : w.isfile pp = true)
    (hintro : get_msbuild_configurations_and_platforms w pp = .ok (configs, plats))
    (hcp : cfg = "" ∨ plat = "")
    (hne : ¬(configs = [] ∧ plats = [])) :
    build_msbuild_project w pp cfg plat verb mcc rst extra =
      .ok (discoveryMessage configs plats) ∧
    ∀ f : List String → SubprocessOutcome,
      build_msbuild_project {w with run := f} pp cfg plat verb mcc rst extra =
        .ok (discoveryMessage configs plats) := by
  have hinv := introspect_isEmpty_eq w pp configs plats hintro
  have hcfg_ne : configs ≠ [] := by
    intro h0
    apply hne
    refine ⟨h0, ?_⟩
    rw [h0] at hinv
    exact List.isEmpty_iff.mp (by rw [← hinv]; rfl)
  have hplats_ne : plats ≠ [] := by
    intro h0
    apply hne
    refine ⟨?_, h0⟩
    rw [h0] at hinv
    exact List.isEmpty_iff.mp (by rw [hinv]; rfl)
  have hb : ∀ w2 : World, find_msbuild w2 = .ok msb → w2.isfile pp = true →
      get_msbuild_configurations_and_platforms w2 pp = .ok (configs, plats) →
      build_msbuild_project w2 pp cfg plat verb mcc rst extra =
        .ok (discoveryMessage configs plats) := by
    intro w2 h1 h2 h3
    rcases hcp with h | h <;> subst h <;>
      simp [build_msbuild_project, h1, h2, h3, hcfg_ne, hplats_ne]
  refine ⟨hb w hfind hfile hintro, fun f => hb {w with run := f} ?_ ?_ ?_⟩
  · rw [find_msbuild_run_update]; exact hfind
  · exact hfile
  · rw [introspect_run_update]; exact hintro

/-- Witness for C3: empty configuration against a project file declaring
Debug|x64 and Release|x64 yields the discovery message listing both
configurations, and no child-process outcome is consulted. -/
theorem C3_discovery_on_empty_parameters_witness :
    build_msbuild_project
      (constWorld (some "C:\\VS") true true (.exc "unused")
        (.ok [" \x27$(Configuration)|$(Platform)\x27 == \x27Debug|x64\x27 ",
              " \x27$(Configuration)|$(Platform)\x27 == \x27Release|x64\x27 "])
        (.completed ⟨0, "", ""⟩))
      "p.vcxproj" "" "x64" "minimal" none true "" =
      .ok (discoveryMessage ["Debug", "Release"] ["x64"]) ∧
    pyIn "Debug" (discoveryMessage ["Debug", "Release"] ["x64"]) = true ∧
    pyIn "Release" (discoveryMessage ["Debug", "Release"] ["x64"]) = true := by
  have h := C3_discovery_on_empty_parameters
    (constWorld (some "C:\\VS") true true (.exc "unused")
      (.ok [" \x27$(Configuration)|$(Platform)\x27 == \x27Debug|x64\x27 ",
            " \x27$(Configuration)|$(Platform)\x27 == \x27Release|x64\x27 "])
      (.completed ⟨0, "", ""⟩))
    "p.vcxproj" "" "x64" "minimal" none true ""
    ("C:\\VS" ++ msbuildRelSuffix) ["Debug", "Release"] ["x64"]
    rfl rfl (by decide) (Or.inl rfl) (by decide)
  exact ⟨h.1, by decide, by decide⟩

/-- C4: for every request with non-empty configuration and platform, a
non-empty discovered configuration set not containing the requested
configuration yields the structured rejection naming the valid
configuration set, independently of the run oracle; and, when the
configuration check passes, the same holds for the platform against the
discovered platform set. -/
theorem C4_rejection_of_unknown_values (w : World)
    (pp cfg plat verb : String) (mcc : Option Int) (rst : Bool) (extra : String)
    (msb : String) (configs plats : List String)
    (hfind : find_msbuild w = .ok msb)
    (hfile : w.isfile pp = true)
    (hintro : get_msbuild_configurations_and_platforms w pp = .ok (configs, plats))
    (hcfg : cfg ≠ "") (hplat : plat ≠ "") :
    (configs ≠ [] → cfg ∉ configs →
      ∀ f : List String → SubprocessOutcome,
        build_msbuild_project {w with run := f} pp cfg plat verb mcc rst extra =
          .ok (rejectConfigMessage cfg configs)) ∧
    ((configs = [] ∨ cfg ∈ configs) → plats ≠ [] → plat ∉ plats →
      ∀ f : List String → SubprocessOutcome,
        build_msbuild_project {w with run := f} pp cfg plat verb mcc rst extra =
          .ok (rejectPlatformMessage plat plats)) := by
  constructor
  · intro h1 h2 f
    simp [build_msbuild_project, find_msbuild_run_update, introspect_run_update,
      hfind, hfile, hintro, hcfg, hplat, h1, h2]
  · intro hc h1 h2 f
    rcases hc with h | h
    · subst h
      simp [build_msbuild_project, find_msbuild_run_update, introspect_run_update,
        hfind, hfile, hintro, hcfg, hplat, h1, h2]
    · simp [build_msbuild_project, find_msbuild_run_update, introspect_run_update,
        hfind, hfile, hintro, hcfg, hplat, h, h1, h2]

/-- Witness for C4 at a project declaring Debug|x64 and Release|x64:
configuration "Foo" is rejected with the valid configuration set named;
configuration "Debug" with platform "ARM" is rejected with the valid
platform set named. -/
theorem C4_rejection_of_unknown_values_witness :
    build_msbuild_project
      (constWorld (some "C:\\VS") true true (.exc "unused")
        (.ok [" \x27$(Configuration)|$(Platform)\x27 == \x27Debug|x64\x27 ",
              " \x27$(Configuration)|$(Platform)\x27 == \x27Release|x64\x27 "])
        (.completed ⟨0, "", ""⟩))
      "p.vcxproj" "Foo" "x64" "minimal" none true "" =
      .ok (rejectConfigMessage "Foo" ["Debug", "Release"]) ∧
    pyIn "Debug" (rejectConfigMessage "Foo" ["Debug", "Release"]) = true ∧
    build_msbuild_project
      (constWorld (some "C:\\VS") true true (.exc "unused")
        (.ok [" \x27$(Configuration)|$(Platform)\x27 == \x27Debug|x64\x27 ",
              " \x27$(Configuration)|$(Platform)\x27 == \x27Release|x64\x27 "])
        (.completed ⟨0, "", ""⟩))
      "p.vcxproj" "Debug" "ARM" "minimal" none true "" =
      .ok (rejectPlatformMessage "ARM" ["x64"]) ∧
    pyIn "x64" (rejectPlatformMessage "ARM" ["x64"]) = true := by
  have hA := C4_rejection_of_unknown_values
    (constWorld (some "C:\\VS") true true (.exc "unused")
      (.ok [" \x27$(Configuration)|$(Platform)\x27 == \x27Debug|x64\x27 ",
            " \x27$(Configuration)|$(Platform)\x27 == \x27Release|x64\x27 "])
      (.completed ⟨0, "", ""⟩))
    "p.vcxproj" "Foo" "x64" "minimal" none true ""
    ("C:\\VS" ++ msbuildRelSuffix) ["Debug", "Release"] ["x64"]
    rfl rfl (by decide) (by decide) (by decide)
  have hB := C4_rejection_of_unknown_values
    (constWorld (some "C:\\VS") true true (.exc "unused")
      (.ok [" \x27$(Configuration)|$(Platform)\x27 == \x27Debug|x64\x27 ",
            " \x27$(Configuration)|$(Platform)\x27 == \x27Release|x64\x27 "])
      (.completed ⟨0, "", ""⟩))
    "p.vcxproj" "Debug" "ARM" "minimal" none true ""
    ("C:\\VS" ++ msbuildRelSuffix) ["Debug", "Release"] ["x64"]
    rfl rfl (by decide) (by decide) (by decide)
  refine ⟨?_, by decide, ?_, by decide⟩
  · have := hA.1 (by decide) (by decide)
      (constWorld (some "C:\\VS") true true (.exc "unused")
        (.ok [" \x27$(Configuration)|$(Platform)\x27 == \x27Debug|x64\x27 ",
              " \x27$(Configuration)|$(Platform)\x27 == \x27Release|x64\x27 "])
        (.completed ⟨0, "", ""⟩)).run
    exact this
  · have := hB.2 (by decide) (by decide) (by decide)
      (constWorld (some "C:\\VS") true true (.exc "unused")
        (.ok [" \x27$(Configuration)|$(Platform)\x27 == \x27Debug|x64\x27 ",
              " \x27$(Configuration)|$(Platform)\x27 == \x27Release|x64\x27 "])
        (.completed ⟨0, "", ""⟩)).run
    exact this

/-- C5 counterexample: the assembled argument vector contains no flag
disabling build-node reuse — at a concrete validated request it has seven
elements, while the claim's enumeration (with any spelling of the node-reuse
flag) would have eight. -/
theorem C5_no_node_reuse_flag :
    ¬ ∃ nodeReuseFlag : String,
      buildCmd "MSBuild.exe" "C:\\p.sln" "Debug" "x64" "minimal" none true "" =
        claimedArgumentVector "MSBuild.exe" "C:\\p.sln" "Debug" "x64" "minimal"
          none nodeReuseFlag true "" := by
  rintro ⟨nr, h⟩
  have hlen := congrArg List.length h
  simp [buildCmd, claimedArgumentVector, pyTruthyInt, pySplit] at hlen

/-- C5 amended: the assembled argument vector consists, in order, of the
executable path, the project path, the configuration property, the platform
property, the verbosity flag, either the explicit parallelism flag or the
default auto-parallel flag, the restore flag when restore is true, and the
extra-arguments string split on whitespace appended verbatim — with no
node-reuse flag. -/
theorem C5_argument_vector_shape
    (msb pp cfg plat verb : String) (mcc : Option Int) (rst : Bool) (extra : String) :
    buildCmd msb pp cfg plat verb mcc rst extra =
      [msb, pp,
       "/p:Configuration=" ++ cfg,
       "/p:Platform=" ++ plat,
       "/verbosity:" ++ verb]
      ++ (if pyTruthyInt mcc then ["/maxcpucount:" ++ pyIntStr mcc] else ["/m"])
      ++ (if rst then ["/restore"] else [])
      ++ pySplit extra :=
  buildCmd_shape msb pp cfg plat verb mcc rst extra

/-- C6 counterexample: on a solution path whose content cannot be read back
(the modelled `open`/decode error), the introspector propagates the
exception instead of returning two empty sets — the solution branch has no
try/except. -/
theorem C6_sln_read_failure_raises :
    get_msbuild_configurations_and_platforms
      (constWorld (some "C:\\VS") true true
        (.exc "UnicodeDecodeError: invalid start byte") (.ok [])
        (.completed ⟨0, "", ""⟩))
      "broken.sln" = .exc "UnicodeDecodeError: invalid start byte" ∧
    ¬ ∃ p : List String × List String,
      get_msbuild_configurations_and_platforms
        (constWorld (some "C:\\VS") true true
          (.exc "UnicodeDecodeError: invalid start byte") (.ok [])
          (.completed ⟨0, "", ""⟩))
        "broken.sln" = .ok p := by
  refine ⟨by decide, ?_⟩
  rintro ⟨p, h⟩
  rw [show get_msbuild_configurations_and_platforms
      (constWorld (some "C:\\VS") true true
        (.exc "UnicodeDecodeError: invalid start byte") (.ok [])
        (.completed ⟨0, "", ""⟩))
      "broken.sln" = .exc "UnicodeDecodeError: invalid start byte" from by decide] at h
  cases h

/-- C6 amended: the project-file (non-solution) branch of the introspector
never raises — any exception inside its try body yields two empty sets —
and the solution branch returns normally whenever the file's lines can be
read, but propagates a read/decode failure. -/
theorem C6_introspector_error_behaviour (w : World) (path : String) :
    (pyEndsWith path ".sln" = false →
      ∃ p : List String × List String,
        get_msbuild_configurations_and_platforms w path = .ok p) ∧
    (∀ m : String, pyEndsWith path ".sln" = false →
      w.xmlConditions path = .exc m →
      get_msbuild_configurations_and_platforms w path = .ok ([], [])) ∧
    (∀ lines : List String, pyEndsWith path ".sln" = true →
      w.readLines path = .ok lines →
      get_msbuild_configurations_and_platforms w path =
        .ok (slnScan lines false [] [])) ∧
    (∀ m : String, pyEndsWith path ".sln" = true →
      w.readLines path = .exc m →
      get_msbuild_configurations_and_platforms w path = .exc m) := by
  refine ⟨?_, ?_, ?_, ?_⟩
  · intro h
    cases hxc : w.xmlConditions path with
    | exc m => exact ⟨([], []), by simp [get_msbuild_configurations_and_platforms, h, hxc]⟩
    | ok conds =>
      exact ⟨conds.foldl condExtract ([], []),
        by simp [get_msbuild_configurations_and_platforms, h, hxc]⟩
  · intro m h hxc
    simp [get_msbuild_configurations_and_platforms, h, hxc]
  · intro lines h hrl
    simp [get_msbuild_configurations_and_platforms, h, hrl]
  · intro m h hrl
    simp [get_msbuild_configurations_and_platforms, h, hrl]

/-- Witness for C6 amended: a malformed project file (XML parse failure)
yields two empty sets without an exception, and a readable solution file
returns its scanned sets. -/
theorem C6_introspector_error_behaviour_witness :
    get_msbuild_configurations_and_platforms
      (constWorld (some "C:\\VS") true true (.ok [])
        (.exc "ParseError: not well-formed") (.completed ⟨0, "", ""⟩))
      "broken.vcxproj" = .ok ([], []) ∧
    get_msbuild_configurations_and_platforms
      (constWorld (some "C:\\VS") true true
        (.ok ["GlobalSection(SolutionConfigurationPlatforms) = preSolution",
              "\t\tDebug|x64 = Debug|x64", "\tEndGlobalSection"])
        (.exc "unused") (.completed ⟨0, "", ""⟩))
      "ok.sln" = .ok (["Debug"], ["x64"]) := by
  have h1 := (C6_introspector_error_behaviour
    (constWorld (some "C:\\VS") true true (.ok [])
      (.exc "ParseError: not well-formed") (.completed ⟨0, "", ""⟩))
    "broken.vcxproj").2.1 "ParseError: not well-formed" (by decide) rfl
  have h2 := (C6_introspector_error_behaviour
    (constWorld (some "C:\\VS") true true
      (.ok ["GlobalSection(SolutionConfigurationPlatforms) = preSolution",
            "\t\tDebug|x64 = Debug|x64", "\tEndGlobalSection"])
      (.exc "unused") (.completed ⟨0, "", ""⟩))
    "ok.sln").2.2.1
    ["GlobalSection(SolutionConfigurationPlatforms) = preSolution",
     "\t\tDebug|x64 = Debug|x64", "\tEndGlobalSection"] (by decide) rfl
  refine ⟨h1, ?_⟩
  rw [h2]
  decide

/-- C7 counterexample: when toolchain discovery fails (vswhere reports no
installation), the operation propagates the FileNotFoundError instead of
returning a string to the caller. -/
theorem C7_discovery_failure_propagates :
    build_msbuild_project
      (constWorld none true true (.exc "unused") (.ok [])
        (.completed ⟨0, "", ""⟩))
      "p.vcxproj" "Debug" "x64" "minimal" none true "" =
      .exc "MSBuild executable not found. Ensure Visual Studio is installed." ∧
    ¬ ∃ s : String,
      build_msbuild_project
        (constWorld none true true (.exc "unused") (.ok [])
          (.completed ⟨0, "", ""⟩))
        "p.vcxproj" "Debug" "x64" "minimal" none true "" = .ok s := by
  refine ⟨rfl, ?_⟩
  rintro ⟨s, h⟩
  rw [show build_msbuild_project
      (constWorld none true true (.exc "unused") (.ok [])
        (.completed ⟨0, "", ""⟩))
      "p.vcxproj" "Debug" "x64" "minimal" none true "" =
      .exc "MSBuild executable not found. Ensure Visual Studio is installed." from rfl] at h
  cases h

/-- C7 amended: a toolchain-discovery failure propagates out of the
operation as the raised FileNotFoundError; only a launch-time
FileNotFoundError from running the child is caught and surfaced as the
plain descriptive string; neither is retried (the functions are evaluated
once and deterministically). -/
theorem C7_failure_surfacing_by_stage (w : World)
    (pp cfg plat verb : String) (mcc : Option Int) (rst : Bool) (extra : String) :
    (∀ m : String, find_msbuild w = .exc m →
      build_msbuild_project w pp cfg plat verb mcc rst extra = .exc m) ∧
    (∀ (msb : String) (configs plats : List String),
      find_msbuild w = .ok msb →
      w.isfile pp = true →
      get_msbuild_configurations_and_platforms w pp = .ok (configs, plats) →
      cfg ≠ "" → plat ≠ "" →
      ¬(configs ≠ [] ∧ cfg ∉ configs) →
      ¬(plats ≠ [] ∧ plat ∉ plats) →
      w.run (buildCmd msb pp cfg plat verb mcc rst extra) = .fileNotFoundError →
      build_msbuild_project w pp cfg plat verb mcc rst extra =
        .ok msgLaunchFailure) := by
  constructor
  · intro m h
    simp [build_msbuild_project, h]
  · intro msb configs plats hfind hfile hintro hcfg hplat hcfgok hplatok hrun
    simp [build_msbuild_project, hfind, hfile, hintro, hcfg, hplat, hcfgok, hplatok,
      runAndSummarize, hrun]

/-- Witness for C7 amended: a world with no installation propagates the
discovery exception; a world where the child launch fails returns the plain
launch-failure string. -/
theorem C7_failure_surfacing_by_stage_witness :
    build_msbuild_project
      (constWorld none true true (.exc "unused") (.ok []) (.completed ⟨0, "", ""⟩))
      "q.vcxproj" "Debug" "x64" "minimal" none true "" =
      .exc "MSBuild executable not found. Ensure Visual Studio is installed." ∧
    build_msbuild_project
      (constWorld (some "C:\\VS") true true (.exc "unused") (.ok [])
        .fileNotFoundError)
      "q.vcxproj" "Debug" "x64" "minimal" none true "" = .ok msgLaunchFailure := by
  have h1 := (C7_failure_surfacing_by_stage
    (constWorld none true true (.exc "unused") (.ok []) (.completed ⟨0, "", ""⟩))
    "q.vcxproj" "Debug" "x64" "minimal" none true "").1
    "MSBuild executable not found. Ensure Visual Studio is installed." rfl
  have h2 := (C7_failure_surfacing_by_stage
    (constWorld (some "C:\\VS") true true (.exc "unused") (.ok [])
      .fileNotFoundError)
    "q.vcxproj" "Debug" "x64" "minimal" none true "").2
    ("C:\\VS" ++ msbuildRelSuffix) [] []
    rfl rfl (by decide) (by decide) (by decide) (by decide) (by decide) rfl
  exact ⟨h1, h2⟩

/-- C8: with the machine scope defining the PATH-equivalent variable as A
and the user scope defining it as B (both free of placeholder markers), the
environment map handed to the child maps PATH to A joined with B by the
platform path separator — both scope values are kept, for any process
environment. -/
theorem C8_path_scopes_concatenated (A B : String) (proc : List (String × String))
    (hA : pyIn "%" A = false) (hB : pyIn "%" B = false) :
    lookupCI (reconstructEnvironment [("PATH", A)] [("PATH", B)] proc) "PATH" =
      some (A ++ pathSep ++ B) ∧
    pyIn A (A ++ pathSep ++ B) = true ∧
    pyIn B (A ++ pathSep ++ B) = true := by
  have hmerge : mergePersistent [("PATH", A)] [("PATH", B)] =
      [("PATH", A ++ pathSep ++ B)] := rfl
  have hlook : lookupCI
      (overlayProcess (mergePersistent [("PATH", A)] [("PATH", B)]) proc) "PATH" =
      some (A ++ pathSep ++ B) := by
    rw [hmerge]
    show lookupCI (("PATH", A ++ pathSep ++ B) ::
      proc.filter (fun kv => (lookupCI [("PATH", A ++ pathSep ++ B)] kv.1).isNone))
      "PATH" = some (A ++ pathSep ++ B)
    unfold lookupCI
    rw [List.find?_cons_of_pos _ rfl]
    rfl
  have hv : '%' ∉ (A ++ pathSep ++ B).toList := by
    intro hm
    have hsplit : (A ++ pathSep ++ B).toList =
        A.toList ++ (pathSep.toList ++ B.toList) := by
      simp [String.toList]
    rw [hsplit] at hm
    rcases List.mem_append.mp hm with h | h
    · exact notMem_of_pyIn_singleton_false hA h
    · rcases List.mem_append.mp h with h2 | h2
      · simp [pathSep] at h2
      · exact notMem_of_pyIn_singleton_false hB h2
  refine ⟨lookupCI_substFix hv 3 _ hlook, ?_, ?_⟩
  · have hassoc : A ++ pathSep ++ B = A ++ (pathSep ++ B) := by
      simp [String.append_assoc]
    rw [hassoc]
    exact pyIn_self_append _ _
  · exact pyIn_suffix _ _

/-- Witness for C8: machine PATH "A" and user PATH "B" combine to "A;B"
even when the process environment also defines PATH. -/
theorem C8_path_scopes_concatenated_witness :
    lookupCI (reconstructEnvironment [("PATH", "A")] [("PATH", "B")]
      [("PATH", "C"), ("HOME", "h")]) "PATH" = some "A;B" := by
  have h := C8_path_scopes_concatenated "A" "B" [("PATH", "C"), ("HOME", "h")]
    (by decide) (by decide)
  rw [h.1]
  rfl

/-- C9: on every launch behaviour — normal completion, failing build, or a
launch failure raising FileNotFoundError — the runner's two temporary
backing stores are absent from the filesystem it leaves behind, and when
their names were fresh the filesystem is restored exactly to its initial
state. -/
theorem C9_backing_stores_removed (fs : List String) (outStore errStore : String)
    (beh : LaunchBehavior) :
    outStore ∉ (runWithBackingStores fs outStore errStore beh).2 ∧
    errStore ∉ (runWithBackingStores fs outStore errStore beh).2 ∧
    (outStore ∉ fs → errStore ∉ fs →
      (runWithBackingStores fs outStore errStore beh).2 = fs) := by
  refine ⟨?_, ?_, ?_⟩
  · simp [runWithBackingStores, fsRemove, List.mem_filter]
  · simp [runWithBackingStores, fsRemove, List.mem_filter]
  · intro h1 h2
    show fsRemove (fsRemove (fs ++ [outStore, errStore]) outStore) errStore = fs
    unfold fsRemove
    have hfs1 : List.filter (fun f => f ≠ outStore) fs = fs :=
      List.filter_eq_self.mpr (fun x hx => decide_eq_true (fun he => h1 (he ▸ hx)))
    have hfs2 : List.filter (fun f => f ≠ errStore) fs = fs :=
      List.filter_eq_self.mpr (fun x hx => decide_eq_true (fun he => h2 (he ▸ hx)))
    rw [List.filter_append, hfs1, List.filter_append, hfs2]
    by_cases heo : errStore = outStore <;> simp [List.filter, heo]

/-- Witness for C9: with a fresh pair of store names the filesystem is
unchanged after a launch failure and after a completed run alike. -/
theorem C9_backing_stores_removed_witness :
    (runWithBackingStores ["project.sln"] "tmp_out" "tmp_err" .launchFails).2 =
      ["project.sln"] ∧
    (runWithBackingStores ["project.sln"] "tmp_out" "tmp_err"
      (.runs 1 "out" "err")).2 = ["project.sln"] := by
  exact ⟨(C9_backing_stores_removed ["project.sln"] "tmp_out" "tmp_err"
      .launchFails).2.2 (by decide) (by decide),
    (C9_backing_stores_removed ["project.sln"] "tmp_out" "tmp_err"
      (.runs 1 "out" "err")).2.2 (by decide) (by decide)⟩

/-- C10: a request with max_cpu_count None or 0 gets the auto-parallel flag
"/m" and no "/maxcpucount:" element beyond what the caller supplied in the
executable path, project path, or extra arguments; a positive n gets
"/maxcpucount:n" and no "/m" beyond the caller-supplied strings. -/
theorem C10_zero_means_auto_parallel
    (msb pp cfg plat verb : String) (rst : Bool) (extra : String) :
    (∀ mcc : Option Int, mcc = none ∨ mcc = some 0 →
      buildCmd msb pp cfg plat verb mcc rst extra =
        [msb, pp, "/p:Configuration=" ++ cfg, "/p:Platform=" ++ plat,
         "/verbosity:" ++ verb, "/m"]
        ++ (if rst then ["/restore"] else [])
        ++ pySplit extra ∧
      "/m" ∈ buildCmd msb pp cfg plat verb mcc rst extra ∧
      (∀ t ∈ buildCmd msb pp cfg plat verb mcc rst extra,
        strStarts "/maxcpucount:" t = true →
          t = msb ∨ t = pp ∨ t ∈ pySplit extra)) ∧
    (∀ n : Int, 0 < n →
      buildCmd msb pp cfg plat verb (some n) rst extra =
        [msb, pp, "/p:Configuration=" ++ cfg, "/p:Platform=" ++ plat,
         "/verbosity:" ++ verb, "/maxcpucount:" ++ toString n]
        ++ (if rst then ["/restore"] else [])
        ++ pySplit extra ∧
      ("/maxcpucount:" ++ toString n) ∈ buildCmd msb pp cfg plat verb (some n) rst extra ∧
      (∀ t ∈ buildCmd msb pp cfg plat verb (some n) rst extra,
        t = "/m" → t = msb ∨ t = pp ∨ t ∈ pySplit extra)) := by
  constructor
  · intro mcc hmcc
    have hflag : pyTruthyInt mcc = false := by
      rcases hmcc with h | h <;> subst h <;> rfl
    have heq : buildCmd msb pp cfg plat verb mcc rst extra =
        [msb, pp, "/p:Configuration=" ++ cfg, "/p:Platform=" ++ plat,
         "/verbosity:" ++ verb, "/m"]
        ++ (if rst then ["/restore"] else [])
        ++ pySplit extra := by
      rw [buildCmd_shape, hflag]
      simp
    refine ⟨heq, ?_, ?_⟩
    · rw [heq]; simp
    · intro t ht hstart
      rw [heq] at ht
      rcases List.mem_append.mp ht with h7 | hextra
      · rcases List.mem_append.mp h7 with h6 | hrst
        · simp only [List.mem_cons, List.not_mem_nil, or_false] at h6
          rcases h6 with h | h | h | h | h | h
          · exact Or.inl h
          · exact Or.inr (Or.inl h)
          · rw [h, strStarts_trans_mismatch _ "/m" _ _ (by decide) (by decide) (by decide)] at hstart
            cases hstart
          · rw [h, strStarts_trans_mismatch _ "/m" _ _ (by decide) (by decide) (by decide)] at hstart
            cases hstart
          · rw [h, strStarts_trans_mismatch _ "/m" _ _ (by decide) (by decide) (by decide)] at hstart
            cases hstart
          · rw [h] at hstart
            exact absurd hstart (by decide)
        · by_cases hr : rst
          · rw [hr] at hrst
            simp at hrst
            rw [hrst] at hstart
            exact absurd hstart (by decide)
          · simp [hr] at hrst
      · exact Or.inr (Or.inr hextra)
  · intro n hn
    have hflag : pyTruthyInt (some n) = true := by
      have : n ≠ 0 := by omega
      simp [pyTruthyInt, this]
    have heq : buildCmd msb pp cfg plat verb (some n) rst extra =
        [msb, pp, "/p:Configuration=" ++ cfg, "/p:Platform=" ++ plat,
         "/verbosity:" ++ verb, "/maxcpucount:" ++ toString n]
        ++ (if rst then ["/restore"] else [])
        ++ pySplit extra := by
      rw [buildCmd_shape, hflag]
      simp [pyIntStr]
    refine ⟨heq, ?_, ?_⟩
    · rw [heq]; simp
    · intro t ht hm
      rw [heq] at ht
      rcases List.mem_append.mp ht with h7 | hextra
      · rcases List.mem_append.mp h7 with h6 | hrst
        · simp only [List.mem_cons, List.not_mem_nil, or_false] at h6
          rcases h6 with h | h | h | h | h | h
          · exact Or.inl h
          · exact Or.inr (Or.inl h)
          · rw [hm] at h
            exact absurd h.symm (append_ne_of_length_lt _ _ _ (by decide))
          · rw [hm] at h
            exact absurd h.symm (append_ne_of_length_lt _ _ _ (by decide))
          · rw [hm] at h
            exact absurd h.symm (append_ne_of_length_lt _ _ _ (by decide))
          · rw [hm] at h
            exact absurd h.symm (append_ne_of_length_lt _ _ _ (by decide))
        · by_cases hr : rst
          · rw [hr] at hrst
            simp at hrst
            rw [hm] at hrst
            exact absurd hrst (by decide)
          · simp [hr] at hrst
      · exact Or.inr (Or.inr hextra)

/-- Witness for C10: max_cpu_count 0 yields the auto-parallel vector;
max_cpu_count 4 yields the explicit parallelism vector. -/
theorem C10_zero_means_auto_parallel_witness :
    buildCmd "MSBuild.exe" "p.sln" "Debug" "x64" "minimal" (some 0) true "/t:Build" =
      ["MSBuild.exe", "p.sln", "/p:Configuration=Debug", "/p:Platform=x64",
       "/verbosity:minimal", "/m", "/restore", "/t:Build"] ∧
    buildCmd "MSBuild.exe" "p.sln" "Debug" "x64" "minimal" (some 4) true "" =
      ["MSBuild.exe", "p.sln", "/p:Configuration=Debug", "/p:Platform=x64",
       "/verbosity:minimal", "/maxcpucount:4", "/restore"] := by
  have h1 := (C10_zero_means_auto_parallel "MSBuild.exe" "p.sln" "Debug" "x64"
    "minimal" true "/t:Build").1 (some 0) (Or.inr rfl)
  have h2 := (C10_zero_means_auto_parallel "MSBuild.exe" "p.sln" "Debug" "x64"
    "minimal" true "").2 4 (by decide)
  constructor
  · rw [h1.1]; decide
  · rw [h2.1]; decide

end MSBuildMCP
